import Mathlib

/-!
Verification development for the PepXML_to_Text tool
(`pepxml.py`, the SAX-style pepXML parser, and `pepxml2hit_list.py`,
the best-hit selector and tab-delimited writer).

The embedding below is a shallow translation of the two Python source
files.  Python numbers (`int`, `float`, `Decimal`) are modelled as `Int`
and `Rat`; `float(...)`/`Decimal(...)` string conversion is modelled by an
exact decimal-string parser over `Rat` (binary rounding of `float` is
abstracted away: it is irrelevant to every property treated here, all of
which concern presence/absence of fields, order relations between parsed
constants, and format-conversion choices).  Fallible operations
(`attr[...]` lookups raising `KeyError`, `int(...)`/`float(...)` raising
`ValueError`) are modelled with `Except String`.  Python dicts keyed by
strings are modelled as insertion-ordered association lists, matching
Python 3.7+ dict iteration order.
-/

/-! ## Python-style numeric string parsing -/

/-- Numeric value of a list of decimal digit characters (no validation). -/
def decDigitsVal (cs : List Char) : Nat :=
  cs.foldl (fun n c => n * 10 + (c.toNat - 48)) 0

/-- `int(s)` for an optionally signed run of decimal digits; `none` models
`ValueError`.  (Whitespace stripping and underscore separators accepted by
Python are not exercised by any input considered here.) -/
def pyInt (s : String) : Option Int :=
  let core : List Char → Option Int := fun cs =>
    if cs ≠ [] ∧ cs.all Char.isDigit then some (decDigitsVal cs) else none
  match s.data with
  | '-' :: cs => (core cs).map (fun n => -n)
  | '+' :: cs => core cs
  | cs => core cs

/-- Exponent suffix of a decimal numeric string: empty, or `e`/`E`
followed by an optionally signed digit run. -/
def parseExpPart : List Char → Option Int
  | [] => some 0
  | c :: rest =>
    if c = 'e' ∨ c = 'E' then
      match rest with
      | '-' :: ds => if ds ≠ [] ∧ ds.all Char.isDigit then some (-(decDigitsVal ds : Int)) else none
      | '+' :: ds => if ds ≠ [] ∧ ds.all Char.isDigit then some (decDigitsVal ds) else none
      | ds => if ds ≠ [] ∧ ds.all Char.isDigit then some (decDigitsVal ds) else none
    else none

/-- Mantissa of a decimal numeric string: digits with an optional decimal
point, at least one digit overall.  Returns the digits' value, the number
of fractional digits, and the unconsumed rest. -/
def parseMantissa (cs : List Char) : Option (Nat × Nat × List Char) :=
  let ip := cs.takeWhile Char.isDigit
  let r1 := cs.dropWhile Char.isDigit
  match r1 with
  | '.' :: r2 =>
    let fp := r2.takeWhile Char.isDigit
    let r3 := r2.dropWhile Char.isDigit
    if ip.isEmpty ∧ fp.isEmpty then none
    else some (decDigitsVal (ip ++ fp), fp.length, r3)
  | _ => if ip.isEmpty then none else some (decDigitsVal ip, 0, r1)

/-- Unsigned decimal numeric string (mantissa and optional exponent) as an
exact rational: digit value `m` with `fl` fractional digits and exponent
`e` denotes `m * 10 ^ (e - fl)`. -/
def parseDecCore (cs : List Char) : Option Rat := do
  let (m, fl, rest) ← parseMantissa cs
  let e ← parseExpPart rest
  let ex : Int := e - (fl : Int)
  pure (if 0 ≤ ex then Rat.divInt ((m : Int) * 10 ^ ex.toNat) 1
        else Rat.divInt (m : Int) (10 ^ (-ex).toNat))

/-- Decimal numeric string (optional sign) as an exact rational.  This is
the exact value denoted by the string: it models Python's
`Decimal(value)` constructor, which stores every digit of its input
(the `decimal` context precision, set to 32 in the source, applies only
to arithmetic operations, never performed here), and — up to the
abstracted binary64 rounding — `float(value)`. -/
def parseDecString (s : String) : Option Rat :=
  match s.data with
  | '-' :: cs => (parseDecCore cs).map Rat.neg
  | '+' :: cs => parseDecCore cs
  | cs => parseDecCore cs

/-! ## Data model: the records built by `pepxml.py`

A stored search hit, as appended to `PSM[spectrum_id]['search_hit']`.
Fields set unconditionally at `search_hit` open (or the parse aborts) are
plain; every key that may or may not be present in the dict is `Option`.
Field names follow the dict keys used in the source. -/

structure SearchHit where
  hit_rank : Int
  peptide : String
  protein : String
  missed_cleavages : Int
  NumTrypticEnds : Int
  Ions_Matched : Int
  Ions_Observed : Int
  xcorr : Option Rat := none
  spscore : Option Rat := none
  deltacn : Option Rat := none
  deltacnstar : Option Rat := none
  RankXc : Option Int := none
  XcRatioScore : Option Rat := none
  Ions_Expected : Option Int := none
  hyperscore : Option Rat := none
  nextscore : Option Rat := none
  expect : Option Rat := none
  mqscore : Option Rat := none
  fscore : Option Rat := none
  deltascore : Option Rat := none
  mvh : Option Rat := none
  massError : Option Rat := none
  mzSSE : Option Rat := none
  mzFidelity : Option Rat := none
  newMZFidelity : Option Rat := none
  mzMAE : Option Rat := none
  numPTMs : Option Int := none
  msgfspecprob : Option Rat := none
  TPP_pep_prob : Option Rat := none
  deriving Repr, DecidableEq

/-- The in-progress `self.search_hit` dict: every key optional, since the
dict starts empty and is filled incrementally. -/
structure HitDict where
  hit_rank : Option Int := none
  peptide : Option String := none
  protein : Option String := none
  missed_cleavages : Option Int := none
  NumTrypticEnds : Option Int := none
  Ions_Matched : Option Int := none
  Ions_Observed : Option Int := none
  xcorr : Option Rat := none
  spscore : Option Rat := none
  deltacn : Option Rat := none
  deltacnstar : Option Rat := none
  RankXc : Option Int := none
  XcRatioScore : Option Rat := none
  Ions_Expected : Option Int := none
  hyperscore : Option Rat := none
  nextscore : Option Rat := none
  expect : Option Rat := none
  mqscore : Option Rat := none
  fscore : Option Rat := none
  deltascore : Option Rat := none
  mvh : Option Rat := none
  massError : Option Rat := none
  mzSSE : Option Rat := none
  mzFidelity : Option Rat := none
  newMZFidelity : Option Rat := none
  mzMAE : Option Rat := none
  numPTMs : Option Int := none
  msgfspecprob : Option Rat := none
  TPP_pep_prob : Option Rat := none
  deriving Repr, DecidableEq

def emptyHitDict : HitDict := {}

/-- Close of a `search_hit` element: the working dict becomes the stored
hit.  The required fields are exactly those assigned at the matching
`search_hit` open (`xml.sax` delivers balanced events, so when the close
branch fires they are always present; a missing one is modelled as a
parse error). -/
def HitDict.toSearchHit (w : HitDict) : Option SearchHit := do
  let rank ← w.hit_rank
  let pep ← w.peptide
  let prot ← w.protein
  let mc ← w.missed_cleavages
  let ntt ← w.NumTrypticEnds
  let im ← w.Ions_Matched
  let io ← w.Ions_Observed
  some { hit_rank := rank, peptide := pep, protein := prot, missed_cleavages := mc,
         NumTrypticEnds := ntt, Ions_Matched := im, Ions_Observed := io,
         xcorr := w.xcorr, spscore := w.spscore, deltacn := w.deltacn,
         deltacnstar := w.deltacnstar, RankXc := w.RankXc, XcRatioScore := w.XcRatioScore,
         Ions_Expected := w.Ions_Expected, hyperscore := w.hyperscore,
         nextscore := w.nextscore, expect := w.expect, mqscore := w.mqscore,
         fscore := w.fscore, deltascore := w.deltascore, mvh := w.mvh,
         massError := w.massError, mzSSE := w.mzSSE, mzFidelity := w.mzFidelity,
         newMZFidelity := w.newMZFidelity, mzMAE := w.mzMAE, numPTMs := w.numPTMs,
         msgfspecprob := w.msgfspecprob, TPP_pep_prob := w.TPP_pep_prob }

/-- One entry of `self.PSM`: the per-spectrum record. -/
structure PSMrec where
  charge : Int
  neutral_mass : Rat
  start_scan : Int
  end_scan : Int
  retention_time_sec : Rat
  search_hit : List SearchHit
  deriving Repr, DecidableEq

/-! ## The PSM store: an insertion-ordered string-keyed dict -/

abbrev Store := List (String × PSMrec)

def storeFind (s : Store) (k : String) : Option PSMrec :=
  (s.find? (fun e => e.1 == k)).map (fun e => e.2)

/-- Python dict assignment: an existing key keeps its position, a new key
is appended. -/
def storeSet (s : Store) (k : String) (v : PSMrec) : Store :=
  if (s.find? (fun e => e.1 == k)).isSome then
    s.map (fun e => if e.1 == k then (k, v) else e)
  else s ++ [(k, v)]

/-! ## The XML stream parser (`pepxml.py`, class `pepxml_parser`) -/

inductive XmlEvent where
  | startE (name : String) (attrs : List (String × String))
  | endE (name : String)
  deriving Repr, DecidableEq

/-- The handler's mutable state.  `element_array` and `PSM` are
class-level containers in the source and therefore persist across
instances (see `parse_by_filename`); the remaining attributes are
effectively per-instance (each is rebound on the instance before being
read in any well-formed parse).  `warnings` records the `print` calls of
the current parse call. -/
structure PState where
  element_array : List String
  is_spectrum_query : Bool
  is_search_hit : Bool
  PSM : Store
  search_hit : HitDict
  spectrum_id : String
  warnings : List String
  deriving Repr, DecidableEq

def lookupAttr (attrs : List (String × String)) (k : String) : Option String :=
  (attrs.find? (fun e => e.1 == k)).map (fun e => e.2)

/-- `attr[k]`: `KeyError` if absent. -/
def getAttr (attrs : List (String × String)) (k : String) : Except String String :=
  match lookupAttr attrs k with
  | some v => .ok v
  | none => .error ("KeyError: " ++ k)

/-- `int(attr[k])`. -/
def getIntAttr (attrs : List (String × String)) (k : String) : Except String Int := do
  let v ← getAttr attrs k
  match pyInt v with
  | some n => .ok n
  | none => .error ("ValueError: invalid literal for int: " ++ v)

/-- `float(attr[k])`. -/
def getFloatAttr (attrs : List (String × String)) (k : String) : Except String Rat := do
  let v ← getAttr attrs k
  match parseDecString v with
  | some q => .ok q
  | none => .error ("ValueError: could not convert string to float: " ++ v)

/-- The `search_score` dispatch (depth 6): a chain of comparisons of
`attr['name']` against the known score names; at most one branch fires,
unknown names are ignored.  The branch bodies set one key of
`self.search_hit` from `attr['value']`. -/
def dispatchScore (st : PState) (attrs : List (String × String)) : Except String PState := do
  let scoreName ← getAttr attrs "name"
  if scoreName = "xcorr" then do
    let v ← getFloatAttr attrs "value"
    pure { st with search_hit := { st.search_hit with xcorr := some v } }
  else if scoreName = "spscore" then do
    let v ← getFloatAttr attrs "value"
    pure { st with search_hit := { st.search_hit with spscore := some v } }
  else if scoreName = "deltacn" then do
    let v ← getFloatAttr attrs "value"
    pure { st with search_hit := { st.search_hit with deltacn := some v } }
  else if scoreName = "deltacnstar" then do
    let v ← getFloatAttr attrs "value"
    pure { st with search_hit := { st.search_hit with deltacnstar := some v } }
  else if scoreName = "RankXc" then do
    let v ← getIntAttr attrs "value"
    pure { st with search_hit := { st.search_hit with RankXc := some v } }
  else if scoreName = "XcRatio" then do
    let v ← getFloatAttr attrs "value"
    pure { st with search_hit := { st.search_hit with XcRatioScore := some v } }
  else if scoreName = "Ions_Observed" then do
    let v ← getIntAttr attrs "value"
    pure { st with search_hit := { st.search_hit with Ions_Observed := some v } }
  else if scoreName = "Ions_Expected" then do
    let v ← getIntAttr attrs "value"
    pure { st with search_hit := { st.search_hit with Ions_Expected := some v } }
  else if scoreName = "hyperscore" then do
    let v ← getFloatAttr attrs "value"
    pure { st with search_hit := { st.search_hit with hyperscore := some v } }
  else if scoreName = "nextscore" then do
    let v ← getFloatAttr attrs "value"
    pure { st with search_hit := { st.search_hit with nextscore := some v } }
  else if scoreName = "expect" then do
    let v ← getFloatAttr attrs "value"
    pure { st with search_hit := { st.search_hit with expect := some v } }
  else if scoreName = "mqscore" then do
    let v ← getFloatAttr attrs "value"
    pure { st with search_hit := { st.search_hit with mqscore := some v } }
  else if scoreName = "fscore" then do
    let v ← getFloatAttr attrs "value"
    pure { st with search_hit := { st.search_hit with fscore := some v } }
  else if scoreName = "deltascore" then do
    let v ← getFloatAttr attrs "value"
    pure { st with search_hit := { st.search_hit with deltascore := some v } }
  else if scoreName = "mvh" then do
    let v ← getFloatAttr attrs "value"
    pure { st with search_hit := { st.search_hit with mvh := some v } }
  else if scoreName = "massError" then do
    let v ← getFloatAttr attrs "value"
    pure { st with search_hit := { st.search_hit with massError := some v } }
  else if scoreName = "mzSSE" then do
    let v ← getFloatAttr attrs "value"
    pure { st with search_hit := { st.search_hit with mzSSE := some v } }
  else if scoreName = "mzFidelity" then do
    let v ← getFloatAttr attrs "value"
    pure { st with search_hit := { st.search_hit with mzFidelity := some v } }
  else if scoreName = "newMZFidelity" then do
    let v ← getFloatAttr attrs "value"
    pure { st with search_hit := { st.search_hit with newMZFidelity := some v } }
  else if scoreName = "mzMAE" then do
    let v ← getFloatAttr attrs "value"
    pure { st with search_hit := { st.search_hit with mzMAE := some v } }
  else if scoreName = "numPTMs" then do
    let v ← getIntAttr attrs "value"
    pure { st with search_hit := { st.search_hit with numPTMs := some v } }
  else if scoreName = "NumTrypticEnds" then do
    let v ← getIntAttr attrs "value"
    pure { st with search_hit := { st.search_hit with NumTrypticEnds := some v } }
  else if scoreName = "EValue" then do
    -- MSGF+ EValues are tracked under the same key as X!Tandem `expect`
    let v ← getFloatAttr attrs "value"
    pure { st with search_hit := { st.search_hit with expect := some v } }
  else if scoreName = "msgfspecprob" then do
    let v ← getAttr attrs "value"
    if v = "" then pure st
    else
      match parseDecString v with
      | some q => pure { st with search_hit := { st.search_hit with msgfspecprob := some q } }
      | none => .error ("InvalidOperation: Decimal " ++ v)
  else pure st

/-- The depth-3 `spectrum_query` open action, applied to the state with
the element name already pushed.  A fresh id gets a fresh record with an
empty hit list; a duplicate id keeps the existing record — its
accumulated hit list included — and logs a warning, after which the
scalar fields are (re)assigned from the new element's attributes. -/
def spectrumQueryOpen (st : PState) (attrs : List (String × String)) :
    Except String PState := do
  let sid ← getAttr attrs "spectrum"
  let dup := storeFind st.PSM sid
  let base : PSMrec :=
    match dup with
    | none => { charge := 0, neutral_mass := 0, start_scan := 0, end_scan := 0,
                retention_time_sec := 0, search_hit := [] }
    | some old => old
  let warns :=
    match dup with
    | none => st.warnings
    | some _ => st.warnings ++ ["Duplicate PSM : " ++ sid]
  let c ← getIntAttr attrs "assumed_charge"
  let nm ← getFloatAttr attrs "precursor_neutral_mass"
  let ss ← getIntAttr attrs "start_scan"
  let es ← getIntAttr attrs "end_scan"
  let rt ← getFloatAttr attrs "retention_time_sec"
  pure { st with is_spectrum_query := true, spectrum_id := sid, warnings := warns,
                 PSM := storeSet st.PSM sid
                   { base with charge := c, neutral_mass := nm, start_scan := ss,
                               end_scan := es, retention_time_sec := rt } }

/-- The depth-5 `search_hit` open action: a fresh working dict holding
exactly the seven attribute-derived entries. -/
def searchHitOpen (st : PState) (attrs : List (String × String)) :
    Except String PState := do
  let rank ← getIntAttr attrs "hit_rank"
  let pep ← getAttr attrs "peptide"
  let prot ← getAttr attrs "protein"
  let mc ← getIntAttr attrs "num_missed_cleavages"
  let ntt ← getIntAttr attrs "num_tol_term"
  let im ← getIntAttr attrs "num_matched_ions"
  let io ← getIntAttr attrs "tot_num_ions"
  let w : HitDict :=
    { emptyHitDict with
        hit_rank := some rank
        peptide := some pep
        protein := some prot
        missed_cleavages := some mc
        NumTrypticEnds := some ntt
        Ions_Matched := some im
        Ions_Observed := some io }
  pure { st with is_search_hit := true, search_hit := w }

/-- `startElement(self, name, attr)`.  The element name is pushed, then
the depth (`len(self.element_array)`) and name select the action.  On an
error every already-performed store update of this event is discarded
(the Python original leaves a partially-updated dict behind and
propagates the exception; since a parse error aborts the whole run with
no result, the difference is unobservable for any property below). -/
def startElement (st0 : PState) (name : String) (attrs : List (String × String)) :
    Except String PState :=
  let st := { st0 with element_array := st0.element_array ++ [name] }
  if st.element_array.length = 3 ∧ name = "spectrum_query" then
    spectrumQueryOpen st attrs
  else if st.element_array.length = 5 ∧ name = "search_hit" then
    searchHitOpen st attrs
  else if st.element_array.length = 6 ∧ name = "search_score" then
    dispatchScore st attrs
  else if st.element_array.length = 7 ∧ name = "peptideprophet_result" then do
    let p ← getFloatAttr attrs "probability"
    pure { st with search_hit := { st.search_hit with TPP_pep_prob := some p } }
  else pure st

/-- `endElement(self, name)`: the two depth-tested actions, then the
unconditional pop of the element stack. -/
def endElement (st0 : PState) (name : String) : Except String PState := do
  let st ←
    if st0.element_array.length = 3 ∧ name = "spectrum_query" then
      pure { st0 with spectrum_id := "", is_spectrum_query := false }
    else pure st0
  let st ←
    if st.element_array.length = 5 ∧ name = "search_hit" then do
      let psm ←
        match storeFind st.PSM st.spectrum_id with
        | some p => pure p
        | none => .error ("KeyError: " ++ st.spectrum_id)
      let hit ←
        match st.search_hit.toSearchHit with
        | some h => pure h
        | none => .error "incomplete search_hit"
      pure { st with PSM := storeSet st.PSM st.spectrum_id
                       { psm with search_hit := psm.search_hit ++ [hit] },
                     search_hit := emptyHitDict, is_search_hit := false }
    else pure st
  match st.element_array with
  | [] => .error "IndexError: pop from empty list"
  | _ => pure { st with element_array := st.element_array.dropLast }

def handleEvent (st : PState) : XmlEvent → Except String PState
  | .startE n attrs => startElement st n attrs
  | .endE n => endElement st n

def runEvents (st : PState) : List XmlEvent → Except String PState
  | [] => .ok st
  | e :: rest => do runEvents (← handleEvent st e) rest

/-- The class-attribute initial values of `pepxml_parser`. -/
def initialClassState : PState :=
  { element_array := [], is_spectrum_query := false, is_search_hit := false,
    PSM := [], search_hit := emptyHitDict, spectrum_id := "", warnings := [] }

/-- `parse_by_filename`: constructs a handler instance and feeds it the
document's events.  `element_array` and `PSM` are class-level mutable
containers in the source — creating a new instance does **not** reset
them, so they are taken from the incoming (persistent) class state `cls`;
the instance-rebound attributes start from their per-instance values. -/
def parse_by_filename (cls : PState) (events : List XmlEvent) : Except String PState :=
  runEvents { cls with is_spectrum_query := false, is_search_hit := false,
                       search_hit := emptyHitDict, spectrum_id := "", warnings := [] } events

/-! ## The best-hit selector (`pepxml2hit_list.py`, lines 45-109)

The running "best" candidate of the single forward pass over a PSM's
hits, i.e. the `best_*` locals of the writer loop, plus `HitsParsed`.
`best_deltacn` has no pre-loop initializer in the source (it is first
assigned when the first hit is stored, which precedes every read whenever
the hit list is non-empty); it is initialized to 0 here. -/

structure SelState where
  best_peptide : String := ""
  best_protein : String := ""
  best_xcorr : Rat := 0
  missed_cleavages : Int := 0
  best_deltacn : Rat := 0
  best_deltacnStar : Rat := 0
  best_RankXc : Int := 0
  best_XcRatioScore : Rat := 0
  best_Ions_Observed : Int := 0
  best_Ions_Matched : Int := 0
  best_Ions_Expected : Int := 0
  best_NumTrypticEnds : Int := 0
  best_msgfspecprob : Rat := 1
  best_expect : Rat := 1
  HitsParsed : Nat := 0
  deriving Repr, DecidableEq

def initSel : SelState := {}

/-- `tmp_hit.setdefault(key, default)` for the three comparison keys:
returns the stored value or the default, and — crucially — *inserts* the
default into the hit when the key was absent. -/
def sdHit (h : SearchHit) : SearchHit :=
  { h with
      msgfspecprob := some (h.msgfspecprob.getD 1)
      expect := some (h.expect.getD 1)
      xcorr := some (h.xcorr.getD 0) }

/-- The replacement cascade of lines 82-90, evaluated for a non-first hit
`h` against the running best `s`: the `msgfspecprob` rule, else the
`expect` rule, else the `xcorr` rule (which is guarded by
`best_xcorr > 0`), else no replacement. -/
def wouldReplace (s : SelState) (h : SearchHit) : Bool :=
  if s.best_msgfspecprob < 1 then decide (h.msgfspecprob.getD 1 < s.best_msgfspecprob)
  else if s.best_expect < 1 then decide (h.expect.getD 1 < s.best_expect)
  else if s.best_xcorr > 0 then decide (h.xcorr.getD 0 > s.best_xcorr)
  else false

/-- `StoreHit` for the current hit: the first hit is always stored,
afterwards the cascade decides. -/
def storeFlag (s : SelState) (h : SearchHit) : Bool :=
  (s.HitsParsed == 0) || wouldReplace s h

/-- One iteration of the `for tmp_hit in PSM[spectrum_id]['search_hit']`
loop: the three `setdefault` reads (which mutate the hit), the cascade,
and — when the hit is stored — the copy of the carried-forward fields,
whose own `setdefault` reads insert further defaults into the hit.
Returns the updated running best and the (possibly mutated) hit as it
remains in the store. -/
def selStep (s : SelState) (h : SearchHit) : SelState × SearchHit :=
  let h1 := sdHit h
  if storeFlag s h1 then
    let h2 :=
      { h1 with
          deltacn := some (h1.deltacn.getD 0)
          deltacnstar := some (h1.deltacnstar.getD 0)
          RankXc := some (h1.RankXc.getD 0)
          XcRatioScore := some (h1.XcRatioScore.getD 0)
          Ions_Expected := some (h1.Ions_Expected.getD 0) }
    ({ s with
         best_peptide := h1.peptide
         best_protein := h1.protein
         best_xcorr := h1.xcorr.getD 0
         missed_cleavages := h1.missed_cleavages
         best_deltacn := h1.deltacn.getD 0
         best_deltacnStar := h1.deltacnstar.getD 0
         best_RankXc := h1.RankXc.getD 0
         best_XcRatioScore := h1.XcRatioScore.getD 0
         best_Ions_Observed := h1.Ions_Observed
         best_Ions_Matched := h1.Ions_Matched
         best_Ions_Expected := h1.Ions_Expected.getD 0
         best_NumTrypticEnds := h1.NumTrypticEnds
         best_msgfspecprob := h1.msgfspecprob.getD 1
         best_expect := h1.expect.getD 1
         HitsParsed := s.HitsParsed + 1 }, h2)
  else ({ s with HitsParsed := s.HitsParsed + 1 }, h1)

/-- The whole per-PSM loop: final running best and the hit list as it
remains in the store afterwards. -/
def selRun (s : SelState) : List SearchHit → SelState × List SearchHit
  | [] => (s, [])
  | h :: t =>
    let p1 := selStep s h
    let pr := selRun p1.1 t
    (pr.1, p1.2 :: pr.2)

/-- `true` iff no iteration of the loop started in state `s` on the given
hits fires `StoreHit`. -/
def noStoreRun (s : SelState) : List SearchHit → Bool
  | [] => true
  | h :: t => !storeFlag s (sdHit h) && noStoreRun (selStep s h).1 t

/-! ## The text writer (`pepxml2hit_list.py`, lines 41-43 and 111-116)

Formatting is modelled at the level of the `%`-conversion applied to each
cell: `%s` (Python `str()`), `%d` (plain integer), `%f` (fixed
six-decimal-place float rendering). -/

inductive Conv where
  | str
  | int
  | fixed6
  deriving Repr, DecidableEq

/-- A cell value with its Python runtime kind: a string, an `int`, or a
`float`/`Decimal` (the numeric, non-integer kinds, modelled as `Rat`). -/
inductive PyVal where
  | s (v : String)
  | i (v : Int)
  | r (v : Rat)
  deriving Repr, DecidableEq

def isFloatVal : PyVal → Bool
  | .r _ => true
  | _ => false

/-- The header cells, in the order of the three `f_out.write` calls of
lines 41-43. -/
def headerCells : List String :=
  ["Spectrum_ID", "Charge", "NeutralMass", "Peptide", "Protein", "MissedCleavages",
   "Xcorr", "DeltaCn",
   "DeltaCn2", "RankXc", "XcRatio", "Ions_Observed", "Ions_Matched", "Ions_Expected",
   "NumTrypticEnds", "MSGF_SpecProb", "EValue",
   "Scan_Scan", "End_Scan", "RetentionTime_Sec"]

/-- One data row (lines 112-116): each cell is the conversion the format
string applies and the value handed to it. -/
def rowCells (sid : String) (p : PSMrec) (s : SelState) : List (Conv × PyVal) :=
  [(.str, .s sid), (.str, .i p.charge), (.fixed6, .r p.neutral_mass),
   (.str, .s s.best_peptide), (.str, .s s.best_protein), (.int, .i s.missed_cleavages),
   (.fixed6, .r s.best_xcorr), (.fixed6, .r s.best_deltacn),
   (.fixed6, .r s.best_deltacnStar), (.str, .i s.best_RankXc),
   (.fixed6, .r s.best_XcRatioScore), (.str, .i s.best_Ions_Observed),
   (.str, .i s.best_Ions_Matched), (.str, .i s.best_Ions_Expected),
   (.str, .i s.best_NumTrypticEnds), (.str, .r s.best_msgfspecprob),
   (.str, .r s.best_expect),
   (.str, .i p.start_scan), (.str, .i p.end_scan), (.fixed6, .r p.retention_time_sec)]

/-- The writer's main loop over `PSM.keys()` in insertion order: runs the
selector on each PSM's hit list (mutating the stored hits through the
`setdefault` reads) and emits a row when `HitsParsed > 0`.  Returns the
emitted rows and the store as it stands after the loop. -/
def writePass : Store → List (List (Conv × PyVal)) × Store
  | [] => ([], [])
  | (sid, p) :: rest =>
    let pr := selRun initSel p.search_hit
    let rec' := writePass rest
    ((if pr.1.HitsParsed > 0 then [rowCells sid p pr.1] else []) ++ rec'.1,
     (sid, { p with search_hit := pr.2 }) :: rec'.2)

def writeAll (store : Store) : List (List (Conv × PyVal)) :=
  (writePass store).1

/-- A minimal stored hit: required fields only, every score key absent. -/
def blankHit : SearchHit :=
  { hit_rank := 1, peptide := "", protein := "P", missed_cleavages := 0,
    NumTrypticEnds := 2, Ions_Matched := 0, Ions_Observed := 0 }

def hitXcorr2 : SearchHit := { blankHit with peptide := "H1", xcorr := some 2 }

def hitMsgfSmall : SearchHit :=
  { blankHit with peptide := "H2", msgfspecprob := some (Rat.divInt 3 10) }

def hitMsgfLargeXcorr5 : SearchHit :=
  { blankHit with peptide := "H3", msgfspecprob := some (Rat.divInt 7 10), xcorr := some 5 }

/-- A hit with no scores at all (curly defaults): its comparison keys
default to msgfspecprob 1, expect 1, xcorr 0. -/
def hitNoScores : SearchHit := { blankHit with peptide := "A" }

def hitXcorr31 : SearchHit :=
  { blankHit with peptide := "B", xcorr := some (Rat.divInt 31 10) }

/-- Relation between a hit as parsed and the same hit after the selector
loop has run over it: identity on every field the loop never writes, the
three comparison keys forced present (at their prior value, or the
`setdefault` default when absent), and the five carried-forward optional
fields either untouched (hit not stored) or forced present (hit stored). -/
def hitRel (h h2 : SearchHit) : Prop :=
  h2.hit_rank = h.hit_rank ∧ h2.peptide = h.peptide ∧ h2.protein = h.protein ∧
  h2.missed_cleavages = h.missed_cleavages ∧ h2.NumTrypticEnds = h.NumTrypticEnds ∧
  h2.Ions_Matched = h.Ions_Matched ∧ h2.Ions_Observed = h.Ions_Observed ∧
  h2.msgfspecprob = some (h.msgfspecprob.getD 1) ∧
  h2.expect = some (h.expect.getD 1) ∧
  h2.xcorr = some (h.xcorr.getD 0) ∧
  (h2.deltacn = h.deltacn ∨ h2.deltacn = some (h.deltacn.getD 0)) ∧
  (h2.deltacnstar = h.deltacnstar ∨ h2.deltacnstar = some (h.deltacnstar.getD 0)) ∧
  (h2.RankXc = h.RankXc ∨ h2.RankXc = some (h.RankXc.getD 0)) ∧
  (h2.XcRatioScore = h.XcRatioScore ∨ h2.XcRatioScore = some (h.XcRatioScore.getD 0)) ∧
  (h2.Ions_Expected = h.Ions_Expected ∨ h2.Ions_Expected = some (h.Ions_Expected.getD 0)) ∧
  h2.spscore = h.spscore ∧ h2.hyperscore = h.hyperscore ∧ h2.nextscore = h.nextscore ∧
  h2.mqscore = h.mqscore ∧ h2.fscore = h.fscore ∧ h2.deltascore = h.deltascore ∧
  h2.mvh = h.mvh ∧ h2.massError = h.massError ∧ h2.mzSSE = h.mzSSE ∧
  h2.mzFidelity = h.mzFidelity ∧ h2.newMZFidelity = h.newMZFidelity ∧
  h2.mzMAE = h.mzMAE ∧ h2.numPTMs = h.numPTMs ∧ h2.TPP_pep_prob = h.TPP_pep_prob

/-- Relation between a store entry before and after the writer loop: the
key, the scalar fields and the hit-list length are unchanged, and each
stored hit is related to its post-loop state by `hitRel`. -/
def entryRel (e e2 : String × PSMrec) : Prop :=
  e2.1 = e.1 ∧ e2.2.charge = e.2.charge ∧ e2.2.neutral_mass = e.2.neutral_mass ∧
  e2.2.start_scan = e.2.start_scan ∧ e2.2.end_scan = e.2.end_scan ∧
  e2.2.retention_time_sec = e.2.retention_time_sec ∧
  List.Forall₂ hitRel e.2.search_hit e2.2.search_hit

/-- A parsed hit with no scores: after the writer loop the stored record
for it has `xcorr = some 0` — the selector's `setdefault` reads write the
defaults back into the store, so a score field absent after parsing does
*not* remain absent. -/
def storeOneBlank : Store :=
  [("S1", { charge := 2, neutral_mass := 1, start_scan := 1, end_scan := 1,
            retention_time_sec := 1, search_hit := [blankHit] })]

/-- A concrete writer state whose EValue column holds a genuine float
value (an `expect` score of 0.5 carried from the selected hit). -/
def selStateExpectHalf : SelState :=
  { initSel with best_expect := Rat.divInt 1 2, HitsParsed := 1 }

def psmPlain : PSMrec :=
  { charge := 2, neutral_mass := 1, start_scan := 1, end_scan := 1,
    retention_time_sec := 1, search_hit := [] }

/-- Erase a hit's `hit_rank` (set it to a fixed value); two hits are
"equal except for hit_rank" iff their erasures coincide. -/
def rankErase (h : SearchHit) : SearchHit := { h with hit_rank := 0 }

def psmRankErase (p : PSMrec) : PSMrec := { p with search_hit := p.search_hit.map rankErase }

def storeRankErase (s : Store) : Store := s.map (fun e => (e.1, psmRankErase e.2))

def storeRankOne : Store :=
  [("S1", { charge := 2, neutral_mass := 1, start_scan := 1, end_scan := 1,
            retention_time_sec := 1, search_hit := [{ blankHit with hit_rank := 1 }] })]

def storeRankNine : Store :=
  [("S1", { charge := 2, neutral_mass := 1, start_scan := 1, end_scan := 1,
            retention_time_sec := 1, search_hit := [{ blankHit with hit_rank := 9 }] })]

/-- A well-formed single-spectrum, single-hit document. -/
def evsOne : List XmlEvent :=
  [.startE "msms_pipeline_analysis" [],
   .startE "msms_run_summary" [],
   .startE "spectrum_query"
     [("spectrum", "S1"), ("assumed_charge", "2"), ("precursor_neutral_mass", "1000.5"),
      ("start_scan", "10"), ("end_scan", "10"), ("retention_time_sec", "99.5")],
   .startE "search_result" [],
   .startE "search_hit"
     [("hit_rank", "1"), ("peptide", "AAA"), ("protein", "P1"), ("num_missed_cleavages", "0"),
      ("num_tol_term", "2"), ("num_matched_ions", "5"), ("tot_num_ions", "10")],
   .endE "search_hit",
   .endE "search_result",
   .endE "spectrum_query",
   .endE "msms_run_summary",
   .endE "msms_pipeline_analysis"]

/-- A document with two `spectrum_query` elements sharing the id `S1`:
the first contributes hit `AAA`, the second different scalars and hit
`BBB`. -/
def evsDup : List XmlEvent :=
  [.startE "msms_pipeline_analysis" [],
   .startE "msms_run_summary" [],
   .startE "spectrum_query"
     [("spectrum", "S1"), ("assumed_charge", "2"), ("precursor_neutral_mass", "1000.5"),
      ("start_scan", "10"), ("end_scan", "10"), ("retention_time_sec", "99.5")],
   .startE "search_result" [],
   .startE "search_hit"
     [("hit_rank", "1"), ("peptide", "AAA"), ("protein", "P1"), ("num_missed_cleavages", "0"),
      ("num_tol_term", "2"), ("num_matched_ions", "5"), ("tot_num_ions", "10")],
   .endE "search_hit",
   .endE "search_result",
   .endE "spectrum_query",
   .startE "spectrum_query"
     [("spectrum", "S1"), ("assumed_charge", "3"), ("precursor_neutral_mass", "1500.25"),
      ("start_scan", "20"), ("end_scan", "20"), ("retention_time_sec", "123.5")],
   .startE "search_result" [],
   .startE "search_hit"
     [("hit_rank", "1"), ("peptide", "BBB"), ("protein", "P2"), ("num_missed_cleavages", "1"),
      ("num_tol_term", "2"), ("num_matched_ions", "6"), ("tot_num_ions", "12")],
   .endE "search_hit",
   .endE "search_result",
   .endE "spectrum_query",
   .endE "msms_run_summary",
   .endE "msms_pipeline_analysis"]

def psmWithHit : PSMrec :=
  { charge := 2, neutral_mass := 1, start_scan := 10, end_scan := 10,
    retention_time_sec := 1,
    search_hit := [{ blankHit with peptide := "AAA", protein := "P1" }] }

/-- Handler state about to open a second `spectrum_query` at depth 3 while
`S1` is already in the store. -/
def stDup2 : PState :=
  { initialClassState with
      element_array := ["msms_pipeline_analysis", "msms_run_summary"]
      PSM := [("S1", psmWithHit)] }

def attrsDup2 : List (String × String) :=
  [("spectrum", "S1"), ("assumed_charge", "3"), ("precursor_neutral_mass", "1500.25"),
   ("start_scan", "20"), ("end_scan", "20"), ("retention_time_sec", "123.5")]

def whitBBB : HitDict :=
  { emptyHitDict with
      hit_rank := some 1
      peptide := some "BBB"
      protein := some "P2"
      missed_cleavages := some 1
      NumTrypticEnds := some 2
      Ions_Matched := some 6
      Ions_Observed := some 12 }

def hitBBB : SearchHit :=
  { hit_rank := 1, peptide := "BBB", protein := "P2", missed_cleavages := 1,
    NumTrypticEnds := 2, Ions_Matched := 6, Ions_Observed := 12 }

/-- Handler state about to close a `search_hit` at depth 5 for spectrum
`S1`, carrying the working hit `BBB`. -/
def stEnd5 : PState :=
  { initialClassState with
      element_array := ["msms_pipeline_analysis", "msms_run_summary", "spectrum_query",
                        "search_result", "search_hit"]
      PSM := [("S1", psmWithHit)]
      spectrum_id := "S1"
      search_hit := whitBBB }

/-- `evsOne` with `start_scan` missing from the `spectrum_query` element. -/
def evsNoStartScan : List XmlEvent :=
  [.startE "msms_pipeline_analysis" [],
   .startE "msms_run_summary" [],
   .startE "spectrum_query"
     [("spectrum", "S1"), ("assumed_charge", "2"), ("precursor_neutral_mass", "1000.5"),
      ("end_scan", "10"), ("retention_time_sec", "99.5")],
   .endE "spectrum_query",
   .endE "msms_run_summary",
   .endE "msms_pipeline_analysis"]

/-- `evsOne` with `num_tol_term` missing from the `search_hit` element. -/
def evsNoTolTerm : List XmlEvent :=
  [.startE "msms_pipeline_analysis" [],
   .startE "msms_run_summary" [],
   .startE "spectrum_query"
     [("spectrum", "S1"), ("assumed_charge", "2"), ("precursor_neutral_mass", "1000.5"),
      ("start_scan", "10"), ("end_scan", "10"), ("retention_time_sec", "99.5")],
   .startE "search_result" [],
   .startE "search_hit"
     [("hit_rank", "1"), ("peptide", "AAA"), ("protein", "P1"), ("num_missed_cleavages", "0"),
      ("num_matched_ions", "5"), ("tot_num_ions", "10")],
   .endE "search_hit",
   .endE "search_result",
   .endE "spectrum_query",
   .endE "msms_run_summary",
   .endE "msms_pipeline_analysis"]

def stDepth2 : PState :=
  { initialClassState with element_array := ["msms_pipeline_analysis", "msms_run_summary"] }

def stDepth4 : PState :=
  { initialClassState with
      element_array := ["msms_pipeline_analysis", "msms_run_summary", "spectrum_query",
                        "search_result"] }

/-- `q` is representable as a decimal number with at most 32 significant
digits: `q = m * 10 ^ (a - b)` for some integer `m` with `|m| < 10^32`
(stated multiplicatively to keep the exponents in `Nat`). -/
def IsDec32 (q : Rat) : Prop :=
  ∃ m : Int, ∃ a b : Nat, |m| < 10 ^ 32 ∧ q * (10 : Rat) ^ b = (m : Rat) * (10 : Rat) ^ a

/-- Handler state whose element stack has depth 5, so an opening
`search_score` lands at depth 6. -/
def stScore6 : PState :=
  { initialClassState with
      element_array := ["msms_pipeline_analysis", "msms_run_summary", "spectrum_query",
                        "search_result", "search_hit"] }

/-- A value string with 33 significant digits. -/
def bigDecStr : String := "1.00000000000000000000000000000001"

/-! ## Theorems -/

/-! ## Lemmas about the selector's single forward pass -/

theorem sdHit_keys (s : SelState) (h : SearchHit) :
    wouldReplace s (sdHit h) = wouldReplace s h := by
  simp [wouldReplace, sdHit]

theorem selStep_fst_of_not_store (s : SelState) (h : SearchHit)
    (hf : storeFlag s (sdHit h) = false) :
    (selStep s h).1 = { s with HitsParsed := s.HitsParsed + 1 } := by
  simp [selStep, hf]

theorem wouldReplace_eq_of_keys (s s' : SelState) (h : SearchHit)
    (h1 : s'.best_msgfspecprob = s.best_msgfspecprob)
    (h2 : s'.best_expect = s.best_expect)
    (h3 : s'.best_xcorr = s.best_xcorr) :
    wouldReplace s' h = wouldReplace s h := by
  simp [wouldReplace, h1, h2, h3]

/-- Along a stretch of the loop in which `StoreHit` never fires, the three
comparison keys of the running best are unchanged. -/
theorem noStoreRun_keys (l : List SearchHit) : ∀ s : SelState, noStoreRun s l = true →
    (selRun s l).1.best_msgfspecprob = s.best_msgfspecprob ∧
    (selRun s l).1.best_expect = s.best_expect ∧
    (selRun s l).1.best_xcorr = s.best_xcorr := by
  induction l with
  | nil => intro s _; exact ⟨rfl, rfl, rfl⟩
  | cons h t ih =>
    intro s hns
    rw [noStoreRun, Bool.and_eq_true, Bool.not_eq_true'] at hns
    obtain ⟨hf, hrest⟩ := hns
    have hstep := selStep_fst_of_not_store s h hf
    have hih := ih _ hrest
    simp only [selRun]
    refine ⟨?_, ?_, ?_⟩
    · rw [hih.1, hstep]
    · rw [hih.2.1, hstep]
    · rw [hih.2.2, hstep]

/-- Immediately after a hit's loop iteration, the hit does not satisfy the
replacement cascade against the new running best: if it was stored the
three comparisons are strict self-comparisons, and if not the cascade
already rejected it and the keys are unchanged. -/
theorem wouldReplace_selStep_self (s : SelState) (h : SearchHit) :
    wouldReplace (selStep s h).1 h = false := by
  by_cases hf : storeFlag s (sdHit h) = true
  · have hkeys : (selStep s h).1.best_msgfspecprob = h.msgfspecprob.getD 1 ∧
        (selStep s h).1.best_expect = h.expect.getD 1 ∧
        (selStep s h).1.best_xcorr = h.xcorr.getD 0 := by
      simp only [selStep]
      rw [hf]
      simp [sdHit]
    obtain ⟨k1, k2, k3⟩ := hkeys
    simp only [wouldReplace, k1, k2, k3]
    split
    · simp
    · split
      · simp
      · split <;> simp
  · rw [Bool.not_eq_true] at hf
    have hstep := selStep_fst_of_not_store s h hf
    have hkeys : wouldReplace (selStep s h).1 h = wouldReplace s h := by
      rw [hstep]; exact wouldReplace_eq_of_keys _ _ _ rfl rfl rfl
    have : wouldReplace s h = false := by
      have := hf
      rw [storeFlag, Bool.or_eq_false_iff] at this
      rw [← sdHit_keys s h]
      exact this.2
    rw [hkeys, this]

theorem selRun_fst_append (l1 l2 : List SearchHit) : ∀ s : SelState,
    (selRun s (l1 ++ l2)).1 = (selRun (selRun s l1).1 l2).1 := by
  induction l1 with
  | nil => intro s; rfl
  | cons h t ih => intro s; simp [selRun, ih]

/-- Claim C1 is false as stated: the forward pass is not cascade-optimal
over the whole hit list.  Concretely, with hits
`[xcorr=2; msgfspecprob=0.3; msgfspecprob=0.7 and xcorr=5]` the third hit
replaces the first through the xcorr rule, so the final output carries
`best_msgfspecprob = 0.7 < 1`; evaluated against that output, the skipped
second hit (msgfspecprob 0.3) satisfies the replacement predicate. -/
theorem selector_cascade_not_optimal_cex :
    ¬ (∀ h ∈ [hitXcorr2, hitMsgfSmall, hitMsgfLargeXcorr5],
        wouldReplace (selRun initSel [hitXcorr2, hitMsgfSmall, hitMsgfLargeXcorr5]).1 h
          = false) := by
  decide

/-- Claim C1 (amended): cascade-optimality holds only from the last
replacement onward.  For any split of a PSM's hit list as
`pre ++ g :: suf` such that no iteration over `suf` fires `StoreHit`
(in particular for the stored hit and everything after the last store),
`g` does not satisfy the replacement predicate evaluated against the
selector's final output.  Hits before the last replacement may satisfy
it, as `selector_cascade_not_optimal_cex` shows. -/
theorem selector_optimal_from_last_store (pre suf : List SearchHit) (g : SearchHit)
    (hns : noStoreRun (selRun initSel (pre ++ [g])).1 suf = true) :
    wouldReplace (selRun initSel (pre ++ g :: suf)).1 g = false := by
  have hsplit : pre ++ g :: suf = (pre ++ [g]) ++ suf := by simp
  rw [hsplit, selRun_fst_append]
  obtain ⟨k1, k2, k3⟩ := noStoreRun_keys suf _ hns
  have hself : wouldReplace (selRun initSel (pre ++ [g])).1 g = false := by
    rw [selRun_fst_append]
    exact wouldReplace_selStep_self _ _
  rw [wouldReplace_eq_of_keys _ _ _ k1 k2 k3, hself]

/-- Claim C1 (amended), witnessed on a concrete two-hit list: the second
hit does not fire `StoreHit`, and the first (stored) hit does not satisfy
the replacement predicate against the final output. -/
theorem selector_optimal_from_last_store_witness :
    noStoreRun (selRun initSel ([] ++ [hitXcorr2])).1 [hitMsgfSmall] = true ∧
    wouldReplace (selRun initSel ([] ++ hitXcorr2 :: [hitMsgfSmall])).1 hitXcorr2 = false :=
  ⟨by decide, selector_optimal_from_last_store [] [hitMsgfSmall] hitXcorr2 (by decide)⟩

/-- Claim C2 is false as stated: with a baseline whose `msgf_specprob`
and `expect` are both 1 (neither rule applies) and whose `xcorr` is 0
(hit A has no scores), a subsequent hit with `xcorr = 3.1 > 0` does
*not* replace the baseline: the fallback is guarded by
`best_xcorr > 0`, so a zero baseline is never replaced.  The selector
keeps hit A. -/
theorem xcorr_rule_zero_baseline_cex :
    ¬ (selRun initSel [hitNoScores]).1.best_msgfspecprob < 1 ∧
    ¬ (selRun initSel [hitNoScores]).1.best_expect < 1 ∧
    (selRun initSel [hitNoScores]).1.best_xcorr = 0 ∧
    (selRun initSel [hitNoScores]).1.best_xcorr < hitXcorr31.xcorr.getD 0 ∧
    storeFlag (selRun initSel [hitNoScores]).1 (sdHit hitXcorr31) = false ∧
    (selRun initSel [hitNoScores, hitXcorr31]).1.best_peptide = "A" := by
  decide

/-- Claim C2 (amended): when neither the `msgf_specprob` rule nor the
`expect` rule applies, a subsequent hit replaces the baseline if and only
if the baseline's `xcorr` is strictly positive *and* the new hit's
`xcorr` (defaulting to 0 when absent) is strictly larger than the
baseline's; a baseline with `xcorr ≤ 0` — in particular the default 0 —
is never replaced by the fallback rule. -/
theorem xcorr_rule_requires_positive_baseline (s : SelState) (h : SearchHit)
    (h0 : s.HitsParsed ≠ 0)
    (hm : ¬ s.best_msgfspecprob < 1)
    (he : ¬ s.best_expect < 1) :
    storeFlag s (sdHit h) = true ↔
      0 < s.best_xcorr ∧ s.best_xcorr < h.xcorr.getD 0 := by
  have hb : (s.HitsParsed == 0) = false := by
    simpa using h0
  rw [storeFlag, hb, Bool.false_or, sdHit_keys, wouldReplace]
  rw [if_neg hm, if_neg he]
  by_cases hx : s.best_xcorr > 0
  · rw [if_pos hx]
    simp [hx, gt_iff_lt]
  · rw [if_neg hx]
    simp [hx]

/-- Claim C2 (amended), witnessed: against a baseline with `xcorr = 2`
(from a first hit with that score) and default msgf/expect keys, a hit
with `xcorr = 3.1` fires the fallback rule. -/
theorem xcorr_rule_requires_positive_baseline_witness :
    storeFlag (selRun initSel [hitXcorr2]).1 (sdHit hitXcorr31) = true ↔
      0 < (selRun initSel [hitXcorr2]).1.best_xcorr ∧
      (selRun initSel [hitXcorr2]).1.best_xcorr < hitXcorr31.xcorr.getD 0 :=
  xcorr_rule_requires_positive_baseline _ _ (by decide) (by decide) (by decide)

theorem hitRel_selStep (s : SelState) (h : SearchHit) : hitRel h (selStep s h).2 := by
  by_cases hf : storeFlag s (sdHit h) = true
  · have : (selStep s h).2 =
        { sdHit h with
            deltacn := some ((sdHit h).deltacn.getD 0)
            deltacnstar := some ((sdHit h).deltacnstar.getD 0)
            RankXc := some ((sdHit h).RankXc.getD 0)
            XcRatioScore := some ((sdHit h).XcRatioScore.getD 0)
            Ions_Expected := some ((sdHit h).Ions_Expected.getD 0) } := by
      simp only [selStep]
      rw [hf]
      simp
    rw [this]
    unfold hitRel sdHit
    simp
  · rw [Bool.not_eq_true] at hf
    have : (selStep s h).2 = sdHit h := by
      simp only [selStep]
      rw [hf]
      simp
    rw [this]
    unfold hitRel sdHit
    simp

theorem hitRel_selRun (l : List SearchHit) : ∀ s : SelState,
    List.Forall₂ hitRel l (selRun s l).2 := by
  induction l with
  | nil => intro s; exact List.Forall₂.nil
  | cons h t ih =>
    intro s
    simp only [selRun]
    exact List.Forall₂.cons (hitRel_selStep s h) (ih _)

/-- Claim C6 is false as stated: running the selector/writer loop over a
store holding one PSM with one hit that has no `xcorr` leaves the store
changed — the stored hit now carries `xcorr = some 0` (and
`msgfspecprob = some 1`, `expect = some 1`), although it was absent after
parsing. -/
theorem selector_mutates_store_cex :
    (writePass storeOneBlank).2 ≠ storeOneBlank ∧
    ((writePass storeOneBlank).2.map (fun e => e.2.search_hit.map SearchHit.xcorr))
      = [[some 0]] ∧
    blankHit.xcorr = none := by
  decide

/-- Claim C6 (amended): the selector does mutate the PSM store, but only
through its `setdefault` reads: PSM keys, order, scalar fields and
hit-list order/length are unchanged, every field the loop never writes is
unchanged, and the mutation is exactly that `msgfspecprob`/`expect`/
`xcorr` become present on every hit (default 1/1/0 when absent) and
`deltacn`/`deltacnstar`/`RankXc`/`XcRatio`/`Ions_Expected` become present
on every stored hit (default 0 when absent); fields already present keep
their values. -/
theorem selector_mutates_only_setdefaults (store : Store) :
    List.Forall₂ entryRel store (writePass store).2 := by
  induction store with
  | nil => exact List.Forall₂.nil
  | cons e rest ih =>
    obtain ⟨sid, p⟩ := e
    simp only [writePass]
    exact List.Forall₂.cons
      ⟨rfl, rfl, rfl, rfl, rfl, rfl, hitRel_selRun p.search_hit initSel⟩ ih

/-- Claim C8: the header line's columns.  The code agrees with the
claimed extended-variant list in every position except the 18th, where it
writes the misspelled literal `"Scan_Scan"` instead of `"Start_Scan"`
(the cell under it holds the `start_scan` value, so the label is an
evident slip in the source). -/
theorem header_scan_scan_typo :
    headerCells.length = 20 ∧
    headerCells.get? 17 = some "Scan_Scan" ∧
    headerCells.take 17 =
      ["Spectrum_ID", "Charge", "NeutralMass", "Peptide", "Protein", "MissedCleavages",
       "Xcorr", "DeltaCn", "DeltaCn2", "RankXc", "XcRatio", "Ions_Observed", "Ions_Matched",
       "Ions_Expected", "NumTrypticEnds", "MSGF_SpecProb", "EValue"] ∧
    headerCells.drop 18 = ["End_Scan", "RetentionTime_Sec"] ∧
    headerCells ≠
      ["Spectrum_ID", "Charge", "NeutralMass", "Peptide", "Protein", "MissedCleavages",
       "Xcorr", "DeltaCn", "DeltaCn2", "RankXc", "XcRatio", "Ions_Observed", "Ions_Matched",
       "Ions_Expected", "NumTrypticEnds", "MSGF_SpecProb", "EValue",
       "Start_Scan", "End_Scan", "RetentionTime_Sec"] := by
  decide

/-- Claim C9 is false as stated: not every float-valued cell of a data
row is rendered with the fixed six-decimal `%f` conversion.  The
`MSGF_SpecProb` and `EValue` cells are interpolated with `%s` (Python
`str()`), so e.g. an expect value of 0.5 is written `0.5`, not
`0.500000`.  Concretely, cell 16 (EValue) holds the float 1/2 but uses
the string conversion. -/
theorem row_float_cells_not_all_fixed6_cex :
    ¬ (∀ cell ∈ rowCells "S1" psmPlain selStateExpectHalf,
        isFloatVal cell.2 = true → cell.1 = Conv.fixed6) ∧
    (rowCells "S1" psmPlain selStateExpectHalf).get? 16
      = some (Conv.str, PyVal.r (Rat.divInt 1 2)) := by
  refine ⟨?_, by decide⟩
  intro hall
  have := hall ((Conv.str, PyVal.r (Rat.divInt 1 2))) (by decide) (by decide)
  simp at this

/-- Claim C9 (amended): in every data row the conversions are, in column
order: `%s` for Spectrum_ID and Charge, `%f` for NeutralMass, `%s` for
Peptide and Protein, `%d` for MissedCleavages, `%f` for Xcorr, DeltaCn,
DeltaCn2, `%s` for RankXc, `%f` for XcRatio, `%s` for the ion counts,
NumTrypticEnds, MSGF_SpecProb and EValue (so the two probability/expect
columns are *not* fixed-six-decimal formatted), `%s` for the scan
numbers, and `%f` for RetentionTime_Sec; and every cell sourced from the
selected hit carries the `setdefault` value of that hit's field — the
selection-time sentinel (1 for msgf/expect, 0 otherwise) exactly when the
field is absent on the selected hit, never a null marker. -/
theorem row_rendering_amended (sid : String) (p : PSMrec) (s : SelState) (h : SearchHit)
    (hf : storeFlag s (sdHit h) = true) :
    (rowCells sid p (selStep s h).1).map Prod.fst =
      [Conv.str, Conv.str, Conv.fixed6, Conv.str, Conv.str, Conv.int, Conv.fixed6,
       Conv.fixed6, Conv.fixed6, Conv.str, Conv.fixed6, Conv.str, Conv.str, Conv.str,
       Conv.str, Conv.str, Conv.str, Conv.str, Conv.str, Conv.fixed6] ∧
    (rowCells sid p (selStep s h).1).get? 6 = some (Conv.fixed6, PyVal.r (h.xcorr.getD 0)) ∧
    (rowCells sid p (selStep s h).1).get? 7 = some (Conv.fixed6, PyVal.r (h.deltacn.getD 0)) ∧
    (rowCells sid p (selStep s h).1).get? 8
      = some (Conv.fixed6, PyVal.r (h.deltacnstar.getD 0)) ∧
    (rowCells sid p (selStep s h).1).get? 9 = some (Conv.str, PyVal.i (h.RankXc.getD 0)) ∧
    (rowCells sid p (selStep s h).1).get? 10
      = some (Conv.fixed6, PyVal.r (h.XcRatioScore.getD 0)) ∧
    (rowCells sid p (selStep s h).1).get? 13
      = some (Conv.str, PyVal.i (h.Ions_Expected.getD 0)) ∧
    (rowCells sid p (selStep s h).1).get? 15
      = some (Conv.str, PyVal.r (h.msgfspecprob.getD 1)) ∧
    (rowCells sid p (selStep s h).1).get? 16 = some (Conv.str, PyVal.r (h.expect.getD 1)) := by
  have hsel : (selStep s h).1 =
      { best_peptide := h.peptide, best_protein := h.protein, best_xcorr := h.xcorr.getD 0,
        missed_cleavages := h.missed_cleavages, best_deltacn := h.deltacn.getD 0,
        best_deltacnStar := h.deltacnstar.getD 0, best_RankXc := h.RankXc.getD 0,
        best_XcRatioScore := h.XcRatioScore.getD 0, best_Ions_Observed := h.Ions_Observed,
        best_Ions_Matched := h.Ions_Matched, best_Ions_Expected := h.Ions_Expected.getD 0,
        best_NumTrypticEnds := h.NumTrypticEnds, best_msgfspecprob := h.msgfspecprob.getD 1,
        best_expect := h.expect.getD 1, HitsParsed := s.HitsParsed + 1 } := by
    simp only [selStep]
    rw [hf]
    simp [sdHit]
  rw [hsel]
  refine ⟨rfl, rfl, rfl, rfl, rfl, rfl, rfl, rfl, rfl⟩

/-- Claim C9 (amended), witnessed at a concrete stored hit with absent
score fields, showing the sentinel defaults in the row cells. -/
theorem row_rendering_amended_witness :
    (rowCells "S1" psmPlain (selStep initSel blankHit).1).map Prod.fst =
      [Conv.str, Conv.str, Conv.fixed6, Conv.str, Conv.str, Conv.int, Conv.fixed6,
       Conv.fixed6, Conv.fixed6, Conv.str, Conv.fixed6, Conv.str, Conv.str, Conv.str,
       Conv.str, Conv.str, Conv.str, Conv.str, Conv.str, Conv.fixed6] ∧
    (rowCells "S1" psmPlain (selStep initSel blankHit).1).get? 6
      = some (Conv.fixed6, PyVal.r (blankHit.xcorr.getD 0)) ∧
    (rowCells "S1" psmPlain (selStep initSel blankHit).1).get? 7
      = some (Conv.fixed6, PyVal.r (blankHit.deltacn.getD 0)) ∧
    (rowCells "S1" psmPlain (selStep initSel blankHit).1).get? 8
      = some (Conv.fixed6, PyVal.r (blankHit.deltacnstar.getD 0)) ∧
    (rowCells "S1" psmPlain (selStep initSel blankHit).1).get? 9
      = some (Conv.str, PyVal.i (blankHit.RankXc.getD 0)) ∧
    (rowCells "S1" psmPlain (selStep initSel blankHit).1).get? 10
      = some (Conv.fixed6, PyVal.r (blankHit.XcRatioScore.getD 0)) ∧
    (rowCells "S1" psmPlain (selStep initSel blankHit).1).get? 13
      = some (Conv.str, PyVal.i (blankHit.Ions_Expected.getD 0)) ∧
    (rowCells "S1" psmPlain (selStep initSel blankHit).1).get? 15
      = some (Conv.str, PyVal.r (blankHit.msgfspecprob.getD 1)) ∧
    (rowCells "S1" psmPlain (selStep initSel blankHit).1).get? 16
      = some (Conv.str, PyVal.r (blankHit.expect.getD 1)) :=
  row_rendering_amended "S1" psmPlain initSel blankHit (by decide)

/-- The running best produced by a storing iteration, in terms of the
hit's fields. -/
theorem selStep_fst_of_store (s : SelState) (h : SearchHit)
    (hf : storeFlag s (sdHit h) = true) :
    (selStep s h).1 =
      { best_peptide := h.peptide, best_protein := h.protein, best_xcorr := h.xcorr.getD 0,
        missed_cleavages := h.missed_cleavages, best_deltacn := h.deltacn.getD 0,
        best_deltacnStar := h.deltacnstar.getD 0, best_RankXc := h.RankXc.getD 0,
        best_XcRatioScore := h.XcRatioScore.getD 0, best_Ions_Observed := h.Ions_Observed,
        best_Ions_Matched := h.Ions_Matched, best_Ions_Expected := h.Ions_Expected.getD 0,
        best_NumTrypticEnds := h.NumTrypticEnds, best_msgfspecprob := h.msgfspecprob.getD 1,
        best_expect := h.expect.getD 1, HitsParsed := s.HitsParsed + 1 } := by
  simp only [selStep]
  rw [hf]
  simp [sdHit]

theorem storeFlag_rankErase (s : SelState) (h : SearchHit) :
    storeFlag s (sdHit (rankErase h)) = storeFlag s (sdHit h) := by
  simp [storeFlag, wouldReplace, sdHit, rankErase]

theorem selStep_fst_rankErase (s : SelState) (h : SearchHit) :
    (selStep s (rankErase h)).1 = (selStep s h).1 := by
  by_cases hf : storeFlag s (sdHit h) = true
  · rw [selStep_fst_of_store _ _ hf,
      selStep_fst_of_store _ _ ((storeFlag_rankErase s h).trans hf)]
    simp [rankErase]
  · rw [Bool.not_eq_true] at hf
    rw [selStep_fst_of_not_store _ _ hf,
      selStep_fst_of_not_store _ _ ((storeFlag_rankErase s h).trans hf)]

theorem selRun_fst_rankErase (l : List SearchHit) : ∀ s : SelState,
    (selRun s (l.map rankErase)).1 = (selRun s l).1 := by
  induction l with
  | nil => intro s; rfl
  | cons h t ih =>
    intro s
    simp only [List.map, selRun, selStep_fst_rankErase]
    exact ih _

theorem writeAll_storeRankErase (store : Store) :
    writeAll (storeRankErase store) = writeAll store := by
  induction store with
  | nil => rfl
  | cons e rest ih =>
    obtain ⟨sid, p⟩ := e
    simp only [writeAll, storeRankErase, List.map, writePass, psmRankErase] at ih ⊢
    rw [selRun_fst_rankErase]
    rw [ih]
    rfl

/-- Claim C10: the written output is independent of `hit_rank`.  For any
two stores that agree once every hit's `hit_rank` is erased — i.e. that
differ at most in `hit_rank` values — the writer (and hence the selector
feeding it) produces identical rows: `hit_rank` is parsed and stored but
never consulted by selection or output. -/
theorem output_independent_of_hit_rank (s1 s2 : Store)
    (h : storeRankErase s1 = storeRankErase s2) :
    writeAll s1 = writeAll s2 := by
  rw [← writeAll_storeRankErase s1, ← writeAll_storeRankErase s2, h]

/-- Claim C10, witnessed on two concrete stores that differ only in a
hit's `hit_rank` (1 vs 9): the writer output coincides. -/
theorem output_independent_of_hit_rank_witness :
    writeAll storeRankOne = writeAll storeRankNine :=
  output_independent_of_hit_rank storeRankOne storeRankNine (by decide)

/-- Claim C5 concerns a defect the spec flags explicitly: `element_array`
and `PSM` are class-level mutable containers, so `parse_by_filename` does
*not* start from a fresh store.  Parsing the same single-spectrum
document twice in one process: the first call returns `S1` with one hit
and no warning; the second call finds `S1` already present in the
persisting class-level store, logs `Duplicate PSM : S1`, and returns a
store in which the hit has been appended a second time — the two calls'
results are not identical and no fresh store instance is created. -/
theorem parse_state_persists_across_calls :
    ((parse_by_filename initialClassState evsOne).toOption.map
      (fun st1 => (st1.warnings, (storeFind st1.PSM "S1").map (fun p => p.search_hit.length))))
      = some ([], some 1) ∧
    ((parse_by_filename initialClassState evsOne).toOption.bind
      (fun st1 => (parse_by_filename st1 evsOne).toOption.map
        (fun st2 =>
          (st2.warnings,
           (storeFind st2.PSM "S1").map (fun p => p.search_hit.length),
           decide (st2.PSM = st1.PSM)))))
      = some (["Duplicate PSM : S1"], some 2, false) := by
  decide

/-- Claim C3 is false in its discard clause: parsing `evsDup` emits the
non-fatal duplicate warning and overwrites the scalar fields with the
second occurrence's values (charge 3, start_scan 20), but the prior
accumulated hit list is *not* discarded — the final hit list for `S1` is
`[AAA, BBB]`, the second occurrence's hits being appended to the retained
first list, not `[BBB]` alone as the claim predicts. -/
theorem duplicate_id_keeps_prior_hits_cex :
    ((parse_by_filename initialClassState evsDup).toOption.map
      (fun st => (st.warnings,
        (storeFind st.PSM "S1").map
          (fun p => (p.charge, p.start_scan, p.search_hit.map SearchHit.peptide)))))
      = some (["Duplicate PSM : S1"], some (3, 20, ["AAA", "BBB"])) ∧
    ¬ ((parse_by_filename initialClassState evsDup).toOption.map
        (fun st => (storeFind st.PSM "S1").map (fun p => p.search_hit.map SearchHit.peptide)))
        = some (some ["BBB"]) := by
  decide

/-- Claim C3 (amended): when a newly opened depth-3 `spectrum_query`
reuses a spectrum id already present in the store, the parser emits the
non-fatal `Duplicate PSM` warning and continues, the existing record's
scalar fields are overwritten with the new element's attributes, and the
prior accumulated hit list is *retained* — the new occurrence's hits are
appended to it by the usual `search_hit` close action (second conjunct),
so nothing is discarded. -/
theorem duplicate_spectrum_query_amended :
    (∀ (st : PState) (attrs : List (String × String)) (sid : String) (old : PSMrec)
       (c ss es : Int) (nm rt : Rat),
       st.element_array.length = 2 →
       storeFind st.PSM sid = some old →
       getAttr attrs "spectrum" = .ok sid →
       getIntAttr attrs "assumed_charge" = .ok c →
       getFloatAttr attrs "precursor_neutral_mass" = .ok nm →
       getIntAttr attrs "start_scan" = .ok ss →
       getIntAttr attrs "end_scan" = .ok es →
       getFloatAttr attrs "retention_time_sec" = .ok rt →
       startElement st "spectrum_query" attrs = .ok
         { st with element_array := st.element_array ++ ["spectrum_query"],
                   is_spectrum_query := true, spectrum_id := sid,
                   warnings := st.warnings ++ ["Duplicate PSM : " ++ sid],
                   PSM := storeSet st.PSM sid
                     { old with charge := c, neutral_mass := nm, start_scan := ss,
                                end_scan := es, retention_time_sec := rt } }) ∧
    (∀ (st : PState) (psm : PSMrec) (hit : SearchHit),
       st.element_array.length = 5 →
       storeFind st.PSM st.spectrum_id = some psm →
       st.search_hit.toSearchHit = some hit →
       endElement st "search_hit" = .ok
         { st with PSM := storeSet st.PSM st.spectrum_id
                     { psm with search_hit := psm.search_hit ++ [hit] },
                   search_hit := emptyHitDict, is_search_hit := false,
                   element_array := st.element_array.dropLast }) := by
  constructor
  · intro st attrs sid old c ss es nm rt hlen hdup hspec hc hnm hss hes hrt
    simp [startElement, spectrumQueryOpen, hlen, hdup, hspec, hc, hnm, hss, hes, hrt,
      Bind.bind, Except.bind, Pure.pure, Except.pure]
  · intro st psm hit hlen hdup hhit
    rcases hea : st.element_array with _ | ⟨a, rest⟩
    · rw [hea] at hlen; simp at hlen
    · have hr4 : rest.length = 4 := by
        have h5 := hlen
        rw [hea] at h5
        simpa using h5
      simp [endElement, hdup, hhit, hea, hr4,
        Bind.bind, Except.bind, Pure.pure, Except.pure]

/-- Claim C3 (amended), witnessed: the duplicate open overwrites `S1`'s
scalars while keeping its hit list, and the following `search_hit` close
appends `BBB` to the retained list. -/
theorem duplicate_spectrum_query_amended_witness :
    startElement stDup2 "spectrum_query" attrsDup2 = .ok
      { stDup2 with element_array := stDup2.element_array ++ ["spectrum_query"],
                    is_spectrum_query := true, spectrum_id := "S1",
                    warnings := stDup2.warnings ++ ["Duplicate PSM : " ++ "S1"],
                    PSM := storeSet stDup2.PSM "S1"
                      { psmWithHit with charge := 3, neutral_mass := Rat.divInt 6001 4,
                                        start_scan := 20, end_scan := 20,
                                        retention_time_sec := Rat.divInt 247 2 } } ∧
    endElement stEnd5 "search_hit" = .ok
      { stEnd5 with PSM := storeSet stEnd5.PSM stEnd5.spectrum_id
                      { psmWithHit with search_hit := psmWithHit.search_hit ++ [hitBBB] },
                    search_hit := emptyHitDict, is_search_hit := false,
                    element_array := stEnd5.element_array.dropLast } :=
  ⟨duplicate_spectrum_query_amended.1 stDup2 attrsDup2 "S1" psmWithHit 3 20 20
      (Rat.divInt 6001 4) (Rat.divInt 247 2) rfl rfl rfl rfl rfl rfl rfl rfl,
   duplicate_spectrum_query_amended.2 stEnd5 psmWithHit hitBBB rfl rfl rfl⟩

/-- Claim C4 is false as stated: `start_scan` (on `spectrum_query`) and
`num_tol_term` (on `search_hit`) are read by direct indexing, so a
document lacking one of them does not parse with the field left absent —
the parse aborts with a `KeyError` and returns no store at all. -/
theorem missing_optional_attribute_aborts_cex :
    (parse_by_filename initialClassState evsNoStartScan).toOption = none ∧
    (parse_by_filename initialClassState evsNoTolTerm).toOption = none := by
  decide

/-- An `Except` bind fails (returns no value) whenever its continuation
fails on every successful outcome of its first stage. -/
theorem toOption_bind_none {α β : Type} (x : Except String α) (f : α → Except String β)
    (h : ∀ a, x = .ok a → (f a).toOption = none) : (x >>= f).toOption = none := by
  cases x with
  | error e => rfl
  | ok a => exact h a rfl

theorem getAttr_of_missing (attrs : List (String × String)) (k : String)
    (h : lookupAttr attrs k = none) : getAttr attrs k = .error ("KeyError: " ++ k) := by
  simp [getAttr, h]

theorem getIntAttr_of_missing (attrs : List (String × String)) (k : String)
    (h : lookupAttr attrs k = none) : getIntAttr attrs k = .error ("KeyError: " ++ k) := by
  simp [getIntAttr, getAttr_of_missing attrs k h, Bind.bind, Except.bind]

theorem getFloatAttr_of_missing (attrs : List (String × String)) (k : String)
    (h : lookupAttr attrs k = none) : getFloatAttr attrs k = .error ("KeyError: " ++ k) := by
  simp [getFloatAttr, getAttr_of_missing attrs k h, Bind.bind, Except.bind]

theorem startElement_sq (st : PState) (attrs : List (String × String))
    (hlen : st.element_array.length = 2) :
    startElement st "spectrum_query" attrs =
      spectrumQueryOpen { st with element_array := st.element_array ++ ["spectrum_query"] }
        attrs := by
  simp [startElement, hlen]

theorem startElement_sh (st : PState) (attrs : List (String × String))
    (hlen : st.element_array.length = 4) :
    startElement st "search_hit" attrs =
      searchHitOpen { st with element_array := st.element_array ++ ["search_hit"] } attrs := by
  simp [startElement, hlen]

/-- Claim C4 (amended): `start_scan`, `end_scan` and `retention_time_sec`
on `spectrum_query`, and `num_tol_term`, `num_matched_ions` and
`tot_num_ions` on `search_hit`, are read by direct indexing and hence
required: an element lacking any of them aborts the parse with an error
(no record field is left absent; no partial result is returned). -/
theorem missing_attribute_aborts_amended :
    (∀ (st : PState) (attrs : List (String × String)),
       st.element_array.length = 2 → lookupAttr attrs "start_scan" = none →
       (startElement st "spectrum_query" attrs).toOption = none) ∧
    (∀ (st : PState) (attrs : List (String × String)),
       st.element_array.length = 2 → lookupAttr attrs "end_scan" = none →
       (startElement st "spectrum_query" attrs).toOption = none) ∧
    (∀ (st : PState) (attrs : List (String × String)),
       st.element_array.length = 2 → lookupAttr attrs "retention_time_sec" = none →
       (startElement st "spectrum_query" attrs).toOption = none) ∧
    (∀ (st : PState) (attrs : List (String × String)),
       st.element_array.length = 4 → lookupAttr attrs "num_tol_term" = none →
       (startElement st "search_hit" attrs).toOption = none) ∧
    (∀ (st : PState) (attrs : List (String × String)),
       st.element_array.length = 4 → lookupAttr attrs "num_matched_ions" = none →
       (startElement st "search_hit" attrs).toOption = none) ∧
    (∀ (st : PState) (attrs : List (String × String)),
       st.element_array.length = 4 → lookupAttr attrs "tot_num_ions" = none →
       (startElement st "search_hit" attrs).toOption = none) := by
  refine ⟨?_, ?_, ?_, ?_, ?_, ?_⟩
  · intro st attrs hlen hnone
    rw [startElement_sq st attrs hlen]
    simp only [spectrumQueryOpen]
    apply toOption_bind_none; intro sid hsid
    apply toOption_bind_none; intro c hc
    apply toOption_bind_none; intro nm hnm
    apply toOption_bind_none; intro ss hss
    simp [getIntAttr_of_missing attrs _ hnone] at hss
  · intro st attrs hlen hnone
    rw [startElement_sq st attrs hlen]
    simp only [spectrumQueryOpen]
    apply toOption_bind_none; intro sid hsid
    apply toOption_bind_none; intro c hc
    apply toOption_bind_none; intro nm hnm
    apply toOption_bind_none; intro ss hss
    apply toOption_bind_none; intro es hes
    simp [getIntAttr_of_missing attrs _ hnone] at hes
  · intro st attrs hlen hnone
    rw [startElement_sq st attrs hlen]
    simp only [spectrumQueryOpen]
    apply toOption_bind_none; intro sid hsid
    apply toOption_bind_none; intro c hc
    apply toOption_bind_none; intro nm hnm
    apply toOption_bind_none; intro ss hss
    apply toOption_bind_none; intro es hes
    apply toOption_bind_none; intro rt hrt
    simp [getFloatAttr_of_missing attrs _ hnone] at hrt
  · intro st attrs hlen hnone
    rw [startElement_sh st attrs hlen]
    simp only [searchHitOpen]
    apply toOption_bind_none; intro rank hrank
    apply toOption_bind_none; intro pep hpep
    apply toOption_bind_none; intro prot hprot
    apply toOption_bind_none; intro mc hmc
    apply toOption_bind_none; intro ntt hntt
    simp [getIntAttr_of_missing attrs _ hnone] at hntt
  · intro st attrs hlen hnone
    rw [startElement_sh st attrs hlen]
    simp only [searchHitOpen]
    apply toOption_bind_none; intro rank hrank
    apply toOption_bind_none; intro pep hpep
    apply toOption_bind_none; intro prot hprot
    apply toOption_bind_none; intro mc hmc
    apply toOption_bind_none; intro ntt hntt
    apply toOption_bind_none; intro im him
    simp [getIntAttr_of_missing attrs _ hnone] at him
  · intro st attrs hlen hnone
    rw [startElement_sh st attrs hlen]
    simp only [searchHitOpen]
    apply toOption_bind_none; intro rank hrank
    apply toOption_bind_none; intro pep hpep
    apply toOption_bind_none; intro prot hprot
    apply toOption_bind_none; intro mc hmc
    apply toOption_bind_none; intro ntt hntt
    apply toOption_bind_none; intro im him
    apply toOption_bind_none; intro io hio
    simp [getIntAttr_of_missing attrs _ hnone] at hio

/-- Claim C4 (amended), witnessed on attribute-less concrete elements at
the right depths: each of the six conjuncts yields an aborted parse. -/
theorem missing_attribute_aborts_amended_witness :
    (startElement stDepth2 "spectrum_query" []).toOption = none ∧
    (startElement stDepth4 "search_hit" []).toOption = none :=
  ⟨missing_attribute_aborts_amended.1 stDepth2 [] rfl rfl,
   missing_attribute_aborts_amended.2.2.2.1 stDepth4 [] rfl rfl⟩

/-- `1 + 10⁻³²`, the exact value of a 33-significant-digit input string,
is not a 32-significant-digit decimal. -/
theorem one_plus_eps_not_dec32 :
    ¬ IsDec32 (Rat.divInt ((10 : Int) ^ 32 + 1) ((10 : Int) ^ 32)) := by
  rintro ⟨m, a, b, habs, heq⟩
  rw [Rat.divInt_eq_div] at heq
  have hne : (((10 : Int) ^ 32 : Int) : Rat) ≠ 0 := by
    norm_num
  rw [div_mul_eq_mul_div, div_eq_iff hne] at heq
  have hz : ((10 : Int) ^ 32 + 1) * 10 ^ b = m * 10 ^ (a + 32) := by
    have h3 := heq
    push_cast at h3
    have h4 : (((10 : Int) ^ 32 + 1 : Int) : Rat) * 10 ^ b = (m : Rat) * 10 ^ (a + 32) := by
      push_cast [pow_add]
      linear_combination h3
    exact_mod_cast h4
  have habs2 : m < 10 ^ 32 := lt_of_le_of_lt (le_abs_self m) habs
  rcases le_or_lt (a + 32) b with hle | hlt
  · have hb : b = (a + 32) + (b - (a + 32)) := by omega
    rw [hb, pow_add, ← mul_assoc] at hz
    have hm : ((10 : Int) ^ 32 + 1) * 10 ^ (b - (a + 32)) = m := by
      have h2 : (((10 : Int) ^ 32 + 1) * 10 ^ (b - (a + 32))) * 10 ^ (a + 32)
          = m * 10 ^ (a + 32) := by
        rw [← hz]; ring
      exact mul_right_cancel₀ (pow_ne_zero _ (by norm_num)) h2
    have hk1 : (1 : Int) ≤ 10 ^ (b - (a + 32)) := by
      have := pow_pos (show (0 : Int) < 10 by norm_num) (b - (a + 32))
      omega
    have hge : (10 : Int) ^ 32 + 1 ≤ m := by
      rw [← hm]
      have := mul_le_mul_of_nonneg_left hk1 (show (0 : Int) ≤ 10 ^ 32 + 1 by positivity)
      linarith
    linarith
  · have ha : a + 32 = b + (a + 32 - b) := by omega
    rw [ha, pow_add, ← mul_assoc] at hz
    have hN : (10 : Int) ^ 32 + 1 = m * 10 ^ (a + 32 - b) := by
      have h2 : ((10 : Int) ^ 32 + 1) * 10 ^ b = (m * 10 ^ (a + 32 - b)) * 10 ^ b := by
        rw [hz]; ring
      exact mul_right_cancel₀ (pow_ne_zero _ (by norm_num)) h2
    have hk1 : 1 ≤ a + 32 - b := by omega
    have hdvd : (10 : Int) ∣ (10 : Int) ^ 32 + 1 := by
      rw [hN]
      have hsplit : a + 32 - b = (a + 32 - b - 1) + 1 := by omega
      rw [hsplit, pow_succ]
      exact ⟨m * 10 ^ (a + 32 - b - 1), by ring⟩
    rw [Int.dvd_iff_emod_eq_zero] at hdvd
    norm_num at hdvd

/-- Claim C7 is false in its precision clause: a `search_score` at depth
6 named `msgfspecprob` stores the *exact* value of its 33-significant-
digit value string (Python's `Decimal` constructor keeps every input
digit; the context precision 32 set by the source applies only to
arithmetic, which never happens) — the stored value is provably not
representable with 32 significant digits, so the field is not "parsed as
a fixed 32-significant-digit decimal". -/
theorem msgfspecprob_not_32digit_cex :
    ((startElement stScore6 "search_score"
        [("name", "msgfspecprob"), ("value", bigDecStr)]).toOption.map
      (fun st => st.search_hit.msgfspecprob))
      = some (some (Rat.divInt ((10 : Int) ^ 32 + 1) ((10 : Int) ^ 32))) ∧
    ¬ IsDec32 (Rat.divInt ((10 : Int) ^ 32 + 1) ((10 : Int) ^ 32)) :=
  ⟨by decide, one_plus_eps_not_dec32⟩

/-- Claim C7 (amended): a `search_score` at depth 6 named `msgfspecprob`
with an empty value string leaves the working hit unchanged — the field
stays absent, not 0 — and the event succeeds; with a parseable value
string it stores the string's exact decimal value (arbitrary precision:
the configured 32-digit context never rounds it, as construction is
exact), never a binary-float approximation. -/
theorem msgfspecprob_amended (st : PState) (attrs : List (String × String)) (v : String)
    (hlen : st.element_array.length = 5)
    (hname : lookupAttr attrs "name" = some "msgfspecprob")
    (hval : lookupAttr attrs "value" = some v) :
    (v = "" → startElement st "search_score" attrs =
      .ok { st with element_array := st.element_array ++ ["search_score"] }) ∧
    (∀ q : Rat, parseDecString v = some q →
      startElement st "search_score" attrs =
        .ok { st with element_array := st.element_array ++ ["search_score"],
                      search_hit := { st.search_hit with msgfspecprob := some q } }) := by
  constructor
  · intro hv
    subst hv
    simp [startElement, dispatchScore, hlen, getAttr, hname, hval,
      Bind.bind, Except.bind, Pure.pure, Except.pure]
  · intro q hq
    have hv : v ≠ "" := by
      intro hv
      subst hv
      simp [parseDecString, parseDecCore, parseMantissa] at hq
    simp [startElement, dispatchScore, hlen, getAttr, hname, hval, hv, hq,
      Bind.bind, Except.bind, Pure.pure, Except.pure]

/-- Claim C7 (amended), witnessed: an empty value leaves the hit dict
unchanged; the value string `0.001` stores exactly 1/1000. -/
theorem msgfspecprob_amended_witness :
    startElement stScore6 "search_score" [("name", "msgfspecprob"), ("value", "")] =
      .ok { stScore6 with element_array := stScore6.element_array ++ ["search_score"] } ∧
    startElement stScore6 "search_score" [("name", "msgfspecprob"), ("value", "0.001")] =
      .ok { stScore6 with element_array := stScore6.element_array ++ ["search_score"],
                          search_hit := { stScore6.search_hit with
                                            msgfspecprob := some (Rat.divInt 1 1000) } } :=
  ⟨(msgfspecprob_amended stScore6 [("name", "msgfspecprob"), ("value", "")] ""
      rfl rfl rfl).1 rfl,
   (msgfspecprob_amended stScore6 [("name", "msgfspecprob"), ("value", "0.001")] "0.001"
      rfl rfl rfl).2 (Rat.divInt 1 1000) rfl⟩
